import Mathlib

/-!
Verification of the covid-model-seiir-pipeline beta-scaling core.

This file gives a shallow embedding, in Lean 4, of the parts of the
repository that the checked claims are about:

* the Residual Offset Aggregator of
  covid_model_seiir_pipeline/forecasting/beta_residual_mean.py
  (run_beta_residual_mean, lines 43-65): cross-draw averaging, the
  death-count-dependent blending offset, and the per-draw record update
  before persistence;
* the per-draw history-window sampling of compute_beta_scaling_parameters
  (lines 95-97);
* the path hierarchy of covid_model_seiir_pipeline/paths.py
  (Paths.make_dirs, InfectionPaths);
* the covariate loader of covid_model_seiir_pipeline/regression/data.py
  (RegressionDataInterface.load_covariate);
* the draw-parallel executor and the control flow of
  run_beta_residual_mean, modelled as an event trace.

Pandas Series are embedded as association lists from integer location ids
to optional rational values; a missing value (the None case) plays the
role of a floating-point NaN, and pandas index alignment on assignment and
selection is modelled explicitly, because the behaviour of the aggregator
on the below-lower-threshold branch depends on it.
-/

/-- Location identifiers are integers (the location_id column). -/
abbrev Loc := Nat

/-- A pandas Series indexed by location: an ordered association list of
location id and optional rational value.  A stored none models NaN. -/
abbrev Series := List (Loc × Option ℚ)

/-- First entry of an association list carrying the given key, the way
pandas resolves a label lookup on an index. -/
def findEntry {α : Type} (s : List (Loc × α)) (l : Loc) : Option (Loc × α) :=
  s.find? (fun p => p.1 == l)

/-- Value of a Series at a label; a label absent from the index behaves
like NaN under alignment, hence the none result. -/
def lookupVal (s : Series) (l : Loc) : Option ℚ :=
  match findEntry s l with
  | some p => p.2
  | none => none

/-- NaN-propagating binary arithmetic on optional values, as floating
point arithmetic propagates NaN through + - * /. -/
def optBin (f : ℚ → ℚ → ℚ) : Option ℚ → Option ℚ → Option ℚ
  | some x, some y => some (f x y)
  | _, _ => none

/-- Total deaths of a location in the shared total-deaths series
(beta_residual_mean.py line 29: total_deaths indexed by location_id). -/
def deathsAt (td : List (Loc × ℚ)) (l : Loc) : Option ℚ :=
  (findEntry td l).map (fun p => p.2)

/-- Boolean mask of line 50:
scaled_offset = (deaths_lower <= total_deaths) & (total_deaths < deaths_upper). -/
def scaledMask (td : List (Loc × ℚ)) (L U : ℚ) (l : Loc) : Bool :=
  match deathsAt td l with
  | some d => decide (L ≤ d) && decide (d < U)
  | none => false

/-- Boolean mask of line 51: full_offset = total_deaths < deaths_lower. -/
def fullMask (td : List (Loc × ℚ)) (L : ℚ) (l : Loc) : Bool :=
  match deathsAt td l with
  | some d => decide (d < L)
  | none => false

/-- Masked assignment with pandas index alignment,
series.loc[mask] = rhs: at every index label satisfying the mask the
stored value is replaced by the rhs value at that label, NaN when the
label is absent from the rhs index. -/
def maskedAssign (s : Series) (m : Loc → Bool) (rhs : Series) : Series :=
  s.map (fun p => (p.1, if m p.1 then lookupVal rhs p.1 else p.2))

/-- Boolean-mask selection, series[mask]: keeps the rows whose label
satisfies the mask. -/
def maskedSelect (s : Series) (m : Loc → Bool) : Series :=
  s.filter (fun p => m p.1)

/-- Aligned elementwise product of two series (line 55 multiplies two
selections sharing the same index). -/
def seriesMul (s t : Series) : Series :=
  s.map (fun p => (p.1, optBin (fun x y => x * y) p.2 (lookupVal t p.1)))

/-- Line 54: scale_factor = (deaths_upper - total_deaths)/(deaths_upper - deaths_lower),
a series over the total-deaths index. -/
def scaleFactorSeries (td : List (Loc × ℚ)) (L U : ℚ) : Series :=
  td.map (fun p => (p.1, some ((U - p.2) / (U - L))))

/-- Right-hand side of the line 55 assignment:
scale_factor[scaled_offset] * average_log_beta_resid_mean[scaled_offset]. -/
def scaledRhs (td : List (Loc × ℚ)) (avg : Series) (L U : ℚ) : Series :=
  seriesMul (maskedSelect (scaleFactorSeries td L U) (scaledMask td L U))
            (maskedSelect avg (scaledMask td L U))

/-- Right-hand side of the line 56 assignment, exactly as the source
writes it: average_log_beta_resid_mean[scaled_offset].rename().
The selection is taken with the scaled_offset mask, not the full_offset
mask, and rename() with no arguments changes nothing. -/
def fullRhs (td : List (Loc × ℚ)) (avg : Series) (L U : ℚ) : Series :=
  maskedSelect avg (scaledMask td L U)

/-- Lines 53-56 of run_beta_residual_mean: the per-location offset series.
Starts from the zero series over the total-deaths index, assigns the
interpolated product on the scaled_offset mask, then assigns the
scaled-masked average on the full_offset mask. -/
def offsetSeries (td : List (Loc × ℚ)) (avg : Series) (L U : ℚ) : Series :=
  maskedAssign
    (maskedAssign (td.map (fun p => (p.1, some (0 : ℚ))))
      (scaledMask td L U) (scaledRhs td avg L U))
    (fullMask td L) (fullRhs td avg L U)

/-- Linear interpolation formula of the between-thresholds regime:
offset = ((U - D)/(U - L)) * average_log_residual. -/
def interp (L U a d : ℚ) : ℚ := (U - d) / (U - L) * a

/-- One draw's ScalingRecord set as assembled by
compute_beta_scaling_parameters (lines 72-115): a dataframe indexed by
location, one column per named field.  Columns are total functions on
locations; rows of the frame are the labels in the index. -/
structure ScalingFrame where
  index : List Loc
  deaths : Loc → Option ℚ
  window_size : Loc → Option ℚ
  fit_final : Loc → Option ℚ
  pred_start : Loc → Option ℚ
  scale_init : Loc → Option ℚ
  history_days_start : Loc → Option ℚ
  history_days_end : Loc → Option ℚ
  log_beta_residual_mean : Loc → Option ℚ
  draw : Loc → Option ℚ

/-- A draw's record set after the offset application of lines 61-63,
as persisted by save_beta_scales on line 65: the original columns, the
offset column added on line 61, the mean log-residual column after the
in-place subtraction of line 62, and the exponentiated final scale of
line 63. -/
structure SavedFrame where
  index : List Loc
  deaths : Loc → Option ℚ
  window_size : Loc → Option ℚ
  fit_final : Loc → Option ℚ
  pred_start : Loc → Option ℚ
  scale_init : Loc → Option ℚ
  history_days_start : Loc → Option ℚ
  history_days_end : Loc → Option ℚ
  log_beta_residual_mean : Loc → Option ℚ
  draw : Loc → Option ℚ
  log_beta_residual_mean_offset : Loc → Option ℚ
  scale_final : Loc → Option ℚ

/-- Lines 61-63 of run_beta_residual_mean, applied to one draw's frame.
Line 61 stores the offset series as a new column, aligned to the frame
index; line 62 subtracts the offset from the mean log-residual column in
place; line 63 exponentiates the already-subtracted column.  The
exponential is an arbitrary function argument expF, standing for the
pointwise np.exp, so every theorem below holds for the exact exponential
in particular. -/
def applyOffset (expF : ℚ → ℚ) (offset : Series) (df : ScalingFrame) : SavedFrame :=
  let off : Loc → Option ℚ := fun l => lookupVal offset l
  let corrected : Loc → Option ℚ :=
    fun l => optBin (fun x y => x - y) (df.log_beta_residual_mean l) (off l)
  { index := df.index
    deaths := df.deaths
    window_size := df.window_size
    fit_final := df.fit_final
    pred_start := df.pred_start
    scale_init := df.scale_init
    history_days_start := df.history_days_start
    history_days_end := df.history_days_end
    log_beta_residual_mean := corrected
    draw := df.draw
    log_beta_residual_mean_offset := off
    scale_final := fun l => (corrected l).map expF }

/-- Concrete one-location draw frame with raw mean log-residual 3,
used to exhibit the in-place overwrite of line 62. -/
def overwriteFrame : ScalingFrame :=
  { index := [1], deaths := fun _ => some 7, window_size := fun _ => some 42
    fit_final := fun _ => some 1, pred_start := fun _ => some 1
    scale_init := fun _ => some 1, history_days_start := fun _ => some 8
    history_days_end := fun _ => some 20
    log_beta_residual_mean := fun _ => some 3
    draw := fun _ => some 0 }

/-- Concrete one-location draw frame with total deaths 10 and raw mean
log-residual 5, matching the below-lower-threshold aggregator input. -/
def belowLowerFrame : ScalingFrame :=
  { index := [1], deaths := fun _ => some 10, window_size := fun _ => some 42
    fit_final := fun _ => some 1, pred_start := fun _ => some 1
    scale_init := fun _ => some 1, history_days_start := fun _ => some 8
    history_days_end := fun _ => some 20
    log_beta_residual_mean := fun _ => some 5
    draw := fun _ => some 0 }

/-- Modelled from the spec: the deterministic pseudo-random generator of
compute_beta_scaling_parameters line 95, np.random.RandomState(draw_id).
The numpy generator itself is outside this repository and the spec marks
its exact bit-level algorithm as an open question, so the state
transition is a concrete 64-bit linear congruential stand-in; the
results below use only that the stream is a pure function of the seed. -/
def lcgNext (s : Nat) : Nat := (6364136223846793005 * s + 1442695040888963407) % 2 ^ 64

/-- Modelled from the spec: rs.randint(low, high) draws a uniform integer
from the half-open interval from low (inclusive) to high (exclusive) and
advances the generator state; numpy raises ValueError when the interval
is empty, modelled by the none result. -/
def randint (state low high : Nat) : Option (Nat × Nat) :=
  if low < high then some (low + lcgNext state % (high - low), lcgNext state) else none

/-- Lines 95-97 of compute_beta_scaling_parameters: seed the generator
with the draw id, draw a in the interval from 1 to average_over_min,
then draw b in the interval from a + 7 to average_over_max, from the
same stream.  The result is a pure function of the draw id and the two
configured bounds, so the same draw id yields the same pair on every
run by construction. -/
def drawWindow (drawId avgMin avgMax : Nat) : Option (Nat × Nat) :=
  match randint drawId 1 avgMin with
  | none => none
  | some (a, s1) =>
    match randint s1 (a + 7) avgMax with
    | none => none
    | some (b, _) => some (a, b)

/-- Python exception kinds raised by the path layer: RuntimeError and
FileNotFoundError, each carrying its message. -/
inductive PyError
  | runtimeError (msg : String)
  | fileNotFoundError (msg : String)
  deriving DecidableEq

/-- Suffix test on the character data of a string, used to model the
glob star pattern; spelled on List Char so that it evaluates inside the
kernel. -/
def nameEndsWith (name sfx : String) : Bool :=
  sfx.data.isSuffixOf name.data

/-- Glob pattern of InfectionPaths.get_location_dir line 184: the
pattern star underscore location-id matches exactly the entry names
ending with an underscore followed by the decimal location id. -/
def locationDirPattern (locationId : Nat) (name : String) : Bool :=
  nameEndsWith name ("_" ++ toString locationId)

/-- InfectionPaths.get_location_dir (paths.py lines 183-194) over the
entry names found under the root: more than one match raises
RuntimeError, zero matches raise FileNotFoundError, otherwise the unique
match is returned. -/
def get_location_dir (entries : List String) (locationId : Nat) : Except PyError String :=
  let found := entries.filter (fun n => locationDirPattern locationId n)
  if 1 < found.length then
    Except.error (PyError.runtimeError
      ("There is more than one location-specific folder for " ++ toString locationId ++ "."))
  else if found.length = 0 then
    Except.error (PyError.fileNotFoundError
      ("There is not a location-specific folder for " ++ toString locationId ++ "."))
  else
    Except.ok (found.headD "")

/-- Paths.make_dirs (paths.py lines 30-40) as a filesystem transition:
the read_only check comes first and raises RuntimeError before any mkdir
runs, so the directory listing is returned untouched; on a writable root
every declared top-level sub-directory is created (mkdir with parents
and exists_ok, modelled as appending the declared directories to the
listing). -/
def makeDirs (className : String) (readOnly : Bool) (directories fs : List String) :
    Except PyError Unit × List String :=
  if readOnly then
    (Except.error (PyError.runtimeError
      ("Tried to create directory structure when " ++ className ++
       " was in read_only mode. Try instantiating with read_only=False.")), fs)
  else
    (Except.ok (), fs ++ directories)

/-- InfectionPaths post-init check (paths.py lines 175-177): the
infection root is always read only, and instantiating it writable raises
RuntimeError at construction. -/
def infectionPathsInit (readOnly : Bool) : Except PyError Unit :=
  if readOnly then Except.ok ()
  else Except.error (PyError.runtimeError "Infection outputs should always be read only.")

/-- Modelled from the spec: the Draw-Parallel Executor contract of
section 4.3, realized in run_beta_residual_mean lines 39-41 by
multiprocessing.Pool.imap over the ordered draw list.  The pool itself
is library code outside this repository; per the contract, imap yields
results in input order regardless of completion order, and a worker
failure propagates when its slot is consumed, aborting the whole batch
with no partial result. -/
def poolImap {α β ε : Type} (f : α → Except ε β) : List α → Except ε (List β)
  | [] => Except.ok []
  | x :: xs =>
    match f x with
    | Except.error e => Except.error e
    | Except.ok y =>
      match poolImap f xs with
      | Except.error e => Except.error e
      | Except.ok ys => Except.ok (y :: ys)

/-- Loop body state of RegressionDataInterface.load_covariate
(regression/data.py lines 84-95), restricted to the covariate-keyed
regression entry of the covariate_set dict: the loop walks the scenario
files in order; the first iteration stores the regression dataframe
under the covariate key (counted by the writes component); every later
iteration only compares its regression dataframe against the cached one
and raises RuntimeError on inequality. -/
def loadCovariateAux {α : Type} [DecidableEq α] :
    List (String × α) → Option α → Nat → Except PyError (Option α × Nat)
  | [], cache, writes => Except.ok (cache, writes)
  | (_, r) :: rest, cache, writes =>
    match cache with
    | none => loadCovariateAux rest (some r) (writes + 1)
    | some c =>
      if c = r then loadCovariateAux rest (some c) writes
      else Except.error (PyError.runtimeError
        "Regression data is not exactly equal between covariates in covariate pool.")

/-- load_covariate over the ordered scenario map of one covariate, each
scenario paired with the regression-portion dataframe derived from its
file; returns the cached regression data and how many times the
covariate key was written. -/
def loadCovariate {α : Type} [DecidableEq α] (scenarioMap : List (String × α)) :
    Except PyError (Option α × Nat) :=
  loadCovariateAux scenarioMap none 0

/-- Events of one invocation of run_beta_residual_mean, in program
order: input loading (lines 22-29), the per-draw fan-out (lines 39-41),
the cross-draw mean (lines 43-45), the unconditional debugger trap of
line 48, the offset computation (lines 50-56), then per draw the
offset application (lines 61-63) and the save_beta_scales write
(line 65). -/
inductive RunEvent
  | loadInputs
  | computeDraw (dr : Nat)
  | crossDrawMean
  | pdbTrap
  | computeOffsets
  | applyOffsetTo (dr : Nat)
  | persistDraw (dr : Nat)
  deriving DecidableEq

/-- Per-draw tail of the loop over scaling_data (lines 58-65). -/
def persistLoop : List Nat → List RunEvent
  | [] => []
  | dr :: t => RunEvent.applyOffsetTo dr :: RunEvent.persistDraw dr :: persistLoop t

/-- Event trace of an invocation of run_beta_residual_mean that reaches
the cross-draw aggregation stage, in the order the statements of the
function body execute. -/
def runBetaResidualMeanTrace (nDraws : Nat) : List RunEvent :=
  RunEvent.loadInputs ::
    ((List.range nDraws).map RunEvent.computeDraw ++
      (RunEvent.crossDrawMean :: RunEvent.pdbTrap :: RunEvent.computeOffsets ::
        persistLoop (List.range nDraws)))

theorem findEntry_map {α β : Type} (s : List (Loc × α)) (f : Loc × α → β) (l : Loc) :
    findEntry (s.map (fun p => (p.1, f p))) l
      = (findEntry s l).map (fun p => (p.1, f p)) := by
  induction s with
  | nil => rfl
  | cons p rest ih =>
      by_cases h : p.1 == l
      · simp [findEntry, List.find?_cons_of_pos, h]
      · simp only [findEntry, List.map_cons] at ih ⊢
        rw [List.find?_cons_of_neg, List.find?_cons_of_neg, ih] <;> simp [h]

theorem findEntry_key {α : Type} {s : List (Loc × α)} {l : Loc} {p : Loc × α}
    (h : findEntry s l = some p) : p.1 = l := by
  have h2 := List.find?_some h
  exact beq_iff_eq.mp h2

theorem findEntry_filter {α : Type} (s : List (Loc × α)) (m : Loc → Bool) (l : Loc) :
    findEntry (s.filter (fun p => m p.1)) l = if m l then findEntry s l else none := by
  induction s with
  | nil => simp [findEntry]
  | cons p rest ih =>
      by_cases hl : p.1 == l
      · have hpl : p.1 = l := beq_iff_eq.mp hl
        by_cases hm : m p.1
        · subst hpl
          simp only [List.filter_cons, hm, ite_true, if_pos hm]
          simp [findEntry, List.find?_cons_of_pos, hl]
        · subst hpl
          simp only [List.filter_cons, hm, Bool.false_eq_true, ite_false]
          rw [ih]
          simp [hm]
      · by_cases hm : m p.1
        · simp only [List.filter_cons, hm, ite_true]
          simp only [findEntry] at ih ⊢
          rw [List.find?_cons_of_neg, List.find?_cons_of_neg, ih]
          · simp [hl]
          · simp [hl]
        · simp only [List.filter_cons, hm, Bool.false_eq_true, ite_false]
          rw [ih]
          simp only [findEntry]
          rw [List.find?_cons_of_neg]
          simp [hl]

theorem lookupVal_maskedSelect (s : Series) (m : Loc → Bool) (l : Loc) :
    lookupVal (maskedSelect s m) l = if m l then lookupVal s l else none := by
  unfold maskedSelect lookupVal
  rw [findEntry_filter]
  by_cases h : m l <;> simp [h]

theorem offsetSeries_lookup (td : List (Loc × ℚ)) (avg : Series) (L U : ℚ) (l : Loc)
    (p : Loc × ℚ) (hp : findEntry td l = some p) :
    lookupVal (offsetSeries td avg L U) l =
      if fullMask td L l then lookupVal (fullRhs td avg L U) l
      else if scaledMask td L U l then lookupVal (scaledRhs td avg L U) l
      else some 0 := by
  have hl : p.1 = l := findEntry_key hp
  unfold offsetSeries maskedAssign lookupVal
  rw [findEntry_map, findEntry_map, findEntry_map, hp]
  simp [hl]

theorem lookupVal_scaledRhs (td : List (Loc × ℚ)) (avg : Series) (L U : ℚ) (l : Loc)
    (p : Loc × ℚ) (hp : findEntry td l = some p)
    (hm : scaledMask td L U l = true) :
    lookupVal (scaledRhs td avg L U) l =
      optBin (fun x y => x * y) (some ((U - p.2) / (U - L))) (lookupVal avg l) := by
  obtain ⟨a, v⟩ := p
  have hl : a = l := findEntry_key hp
  subst hl
  unfold scaledRhs
  have h1 : findEntry (maskedSelect (scaleFactorSeries td L U) (scaledMask td L U)) a
      = some (a, some ((U - v) / (U - L))) := by
    unfold maskedSelect scaleFactorSeries
    rw [findEntry_filter, if_pos hm, findEntry_map, hp]
    rfl
  unfold seriesMul lookupVal
  rw [findEntry_map, h1]
  unfold maskedSelect
  simp [findEntry_filter, hm]

theorem lookupVal_fullRhs_of_below (td : List (Loc × ℚ)) (avg : Series) (L U : ℚ)
    (l : Loc) (d : ℚ) (hd : deathsAt td l = some d) (hdL : d < L) :
    lookupVal (fullRhs td avg L U) l = none := by
  unfold fullRhs
  rw [lookupVal_maskedSelect]
  have hm : scaledMask td L U l = false := by
    unfold scaledMask
    rw [hd]
    simp only [Bool.and_eq_false_iff, decide_eq_false_iff_not, not_le]
    exact Or.inl hdL
  simp [hm]

/-- C2: with total deaths at or above the upper threshold the applied
offset is exactly 0; with deaths between the thresholds the offset is
((U - D)/(U - L)) times the cross-draw average log-residual; and that
interpolation formula is a monotone linear function of D equal to the
full average at D = L and to 0 at D = U. -/
theorem offset_regimes (td : List (Loc × ℚ)) (avg : Series) (L U : ℚ) (l : Loc) (d : ℚ)
    (hd : deathsAt td l = some d) (hLU : L < U) :
    (U ≤ d → lookupVal (offsetSeries td avg L U) l = some 0) ∧
    (∀ a : ℚ, lookupVal avg l = some a → L ≤ d → d < U →
      lookupVal (offsetSeries td avg L U) l = some (interp L U a d)) ∧
    (∀ a : ℚ,
      interp L U a L = a ∧ interp L U a U = 0 ∧
      (∀ d₁ d₂ : ℚ, d₁ ≤ d₂ →
        (0 ≤ a → interp L U a d₂ ≤ interp L U a d₁) ∧
        (a ≤ 0 → interp L U a d₁ ≤ interp L U a d₂))) ∧
    (∀ (expF : ℚ → ℚ) (df : ScalingFrame) (r : ℚ),
      df.log_beta_residual_mean l = some r → U ≤ d →
      (applyOffset expF (offsetSeries td avg L U) df).log_beta_residual_mean l
        = some r) := by
  obtain ⟨p, hp, hpd⟩ : ∃ p, findEntry td l = some p ∧ p.2 = d := by
    unfold deathsAt at hd
    cases h : findEntry td l with
    | none => rw [h] at hd; simp at hd
    | some q => rw [h] at hd; simp at hd; exact ⟨q, rfl, hd⟩
  have hUL : (0 : ℚ) < U - L := sub_pos.mpr hLU
  have hzero : U ≤ d → lookupVal (offsetSeries td avg L U) l = some 0 := by
    intro hUd
    have hF : fullMask td L l = false := by
      unfold fullMask
      rw [hd]
      simp only [decide_eq_false_iff_not, not_lt]
      linarith
    have hS : scaledMask td L U l = false := by
      unfold scaledMask
      rw [hd]
      simp only [Bool.and_eq_false_iff, decide_eq_false_iff_not, not_lt]
      exact Or.inr hUd
    rw [offsetSeries_lookup td avg L U l p hp, hF, hS]
    simp
  refine ⟨hzero, ?_, ?_, ?_⟩
  · intro a ha hLd hdU
    have hF : fullMask td L l = false := by
      unfold fullMask
      rw [hd]
      simp only [decide_eq_false_iff_not, not_lt]
      exact hLd
    have hS : scaledMask td L U l = true := by
      unfold scaledMask
      rw [hd]
      simp [hLd, hdU]
    rw [offsetSeries_lookup td avg L U l p hp, hF, hS]
    simp only [Bool.false_eq_true, ite_false, ite_true]
    rw [lookupVal_scaledRhs td avg L U l p hp hS, ha, hpd]
    unfold optBin interp
    rfl
  · intro a
    refine ⟨?_, ?_, ?_⟩
    · unfold interp
      rw [div_self (ne_of_gt hUL), one_mul]
    · unfold interp
      simp
    · intro d₁ d₂ h12
      constructor
      · intro ha
        unfold interp
        rw [div_mul_eq_mul_div, div_mul_eq_mul_div, div_le_div_iff_of_pos_right hUL]
        exact mul_le_mul_of_nonneg_right (by linarith) ha
      · intro ha
        unfold interp
        rw [div_mul_eq_mul_div, div_mul_eq_mul_div, div_le_div_iff_of_pos_right hUL]
        exact mul_le_mul_of_nonpos_right (by linarith) ha
  · intro expF df r hr hUd
    have h0 := hzero hUd
    simp [applyOffset, hr, h0, optBin]

theorem offset_regimes_witness :
    lookupVal (offsetSeries [(1, 50)] [(1, some 4)] 20 100) 1 = some (interp 20 100 4 50) :=
  (offset_regimes [(1, 50)] [(1, some 4)] 20 100 1 50 rfl (by norm_num)).2.1 4 rfl
    (by norm_num) (by norm_num)

/-- C1: at the concrete input of one location (id 1) with total deaths
10 strictly below the lower threshold 20 (upper threshold 100) and
cross-draw average log-residual 5, the offset the code assigns on the
full_offset branch is NaN, not the raw cross-draw mean 5: line 56 selects
the average with the scaled_offset mask, whose locations are disjoint
from the full_offset locations, so pandas alignment stores a missing
value.  The spec says the offset should be exactly 5 here. -/
theorem full_offset_below_lower_is_nan :
    deathsAt [(1, 10)] 1 = some 10 ∧ (10 : ℚ) < 20 ∧
    lookupVal [(1, some 5)] 1 = some 5 ∧
    lookupVal (offsetSeries [(1, 10)] [(1, some 5)] 20 100) 1 = none ∧
    lookupVal (offsetSeries [(1, 10)] [(1, some 5)] 20 100) 1 ≠ some 5 ∧
    (applyOffset (fun x => x) (offsetSeries [(1, 10)] [(1, some 5)] 20 100)
        belowLowerFrame).log_beta_residual_mean 1 = none ∧
    (applyOffset (fun x => x) (offsetSeries [(1, 10)] [(1, some 5)] 20 100)
        belowLowerFrame).scale_final 1 ≠ some 1 := by
  have hnone : lookupVal (offsetSeries [(1, 10)] [(1, some 5)] 20 100) 1 = none := by
    rw [offsetSeries_lookup [(1, 10)] [(1, some 5)] 20 100 1 (1, 10) rfl]
    have hF : fullMask [(1, 10)] 20 1 = true := by norm_num [fullMask, deathsAt, findEntry]
    rw [hF]
    simp only [ite_true]
    exact lookupVal_fullRhs_of_below [(1, 10)] [(1, some 5)] 20 100 1 10 rfl (by norm_num)
  refine ⟨rfl, by norm_num, rfl, hnone, ?_, ?_, ?_⟩
  · rw [hnone]
    simp
  · simp [applyOffset, belowLowerFrame, hnone, optBin]
  · simp [applyOffset, belowLowerFrame, hnone, optBin]

/-- C4: for every persisted record with raw mean log-residual r and
applied offset o, the final scale factor is exactly the exponential of
r - o, the corrected column stores exactly r - o, and adding the offset
back to the corrected value recovers the raw mean (round trip). -/
theorem scale_final_round_trip (expF : ℚ → ℚ) (offset : Series) (df : ScalingFrame)
    (l : Loc) (r o : ℚ) (_hl : l ∈ df.index)
    (hr : df.log_beta_residual_mean l = some r)
    (ho : (applyOffset expF offset df).log_beta_residual_mean_offset l = some o) :
    (applyOffset expF offset df).scale_final l = some (expF (r - o)) ∧
    (applyOffset expF offset df).log_beta_residual_mean l = some (r - o) ∧
    r - o + o = r := by
  have ho' : lookupVal offset l = some o := ho
  refine ⟨?_, ?_, by ring⟩
  · simp [applyOffset, hr, ho', optBin]
  · simp [applyOffset, hr, ho', optBin]

theorem scale_final_round_trip_witness :
    (applyOffset (fun x => x + 1)
        [(1, some 2)]
        { index := [1], deaths := fun _ => some 7, window_size := fun _ => some 42
          fit_final := fun _ => some 1, pred_start := fun _ => some 1
          scale_init := fun _ => some 1, history_days_start := fun _ => some 8
          history_days_end := fun _ => some 20
          log_beta_residual_mean := fun _ => some 5
          draw := fun _ => some 0 }).scale_final 1 = some ((5 : ℚ) - 2 + 1) :=
  (scale_final_round_trip (fun x => x + 1) [(1, some 2)]
    { index := [1], deaths := fun _ => some 7, window_size := fun _ => some 42
      fit_final := fun _ => some 1, pred_start := fun _ => some 1
      scale_init := fun _ => some 1, history_days_start := fun _ => some 8
      history_days_end := fun _ => some 20
      log_beta_residual_mean := fun _ => some 5
      draw := fun _ => some 0 } 1 5 2 (by simp) rfl rfl).1

/-- C3 counterexample: with raw mean log-residual 3 and offset 1 at
location 1, the persisted log_beta_residual_mean column holds the
corrected value 2, not the raw per-draw value 3: line 62 subtracts the
offset from the same column in place, so the raw mean is not stored
unchanged. -/
theorem raw_residual_not_preserved :
    (applyOffset (fun x => x) [(1, some 1)] overwriteFrame).log_beta_residual_mean 1 ≠
      overwriteFrame.log_beta_residual_mean 1 := by
  simp only [applyOffset, overwriteFrame, lookupVal, findEntry, optBin]
  norm_num [List.find?]

/-- C3 amended: after the offset application every original column other
than the mean log-residual is stored unchanged; the offset and the
exponentiated final scale are stored as additional columns; the mean
log-residual column itself is overwritten with the corrected value
raw - offset, and the raw per-draw mean is recoverable by adding the
stored offset back to the stored corrected value. -/
theorem applyOffset_frame_spec (expF : ℚ → ℚ) (offset : Series) (df : ScalingFrame) :
    (applyOffset expF offset df).index = df.index ∧
    (applyOffset expF offset df).deaths = df.deaths ∧
    (applyOffset expF offset df).window_size = df.window_size ∧
    (applyOffset expF offset df).fit_final = df.fit_final ∧
    (applyOffset expF offset df).pred_start = df.pred_start ∧
    (applyOffset expF offset df).scale_init = df.scale_init ∧
    (applyOffset expF offset df).history_days_start = df.history_days_start ∧
    (applyOffset expF offset df).history_days_end = df.history_days_end ∧
    (applyOffset expF offset df).draw = df.draw ∧
    (∀ l, (applyOffset expF offset df).log_beta_residual_mean_offset l = lookupVal offset l) ∧
    (∀ l, (applyOffset expF offset df).log_beta_residual_mean l =
      optBin (fun x y => x - y) (df.log_beta_residual_mean l) (lookupVal offset l)) ∧
    (∀ l, (applyOffset expF offset df).scale_final l =
      ((applyOffset expF offset df).log_beta_residual_mean l).map expF) ∧
    (∀ l r o, df.log_beta_residual_mean l = some r → lookupVal offset l = some o →
      optBin (fun x y => x + y) ((applyOffset expF offset df).log_beta_residual_mean l)
        ((applyOffset expF offset df).log_beta_residual_mean_offset l) = some r) := by
  refine ⟨rfl, rfl, rfl, rfl, rfl, rfl, rfl, rfl, rfl, fun l => rfl, fun l => rfl,
    fun l => rfl, ?_⟩
  intro l r o hr ho
  simp only [applyOffset, hr, ho, optBin]
  norm_num

theorem applyOffset_frame_spec_witness :
    optBin (fun x y => x + y)
      ((applyOffset (fun x => x) [(1, some 1)] overwriteFrame).log_beta_residual_mean 1)
      ((applyOffset (fun x => x) [(1, some 1)] overwriteFrame).log_beta_residual_mean_offset 1)
      = some 3 :=
  (applyOffset_frame_spec (fun x => x) [(1, some 1)]
    overwriteFrame).2.2.2.2.2.2.2.2.2.2.2.2 1 3 1 rfl rfl

/-- C5: whenever the configured averaging-window bounds admit a draw,
that is whenever the sampling of lines 95-97 succeeds, the history-window
integers satisfy 1 <= a, a + 7 <= b and b <= average_over_max; moreover
a successful first draw forces 2 <= average_over_min, and the pair is
a deterministic function of the draw id and the configured bounds alone. -/
theorem drawWindow_bounds (d m M a b : Nat)
    (h : drawWindow d m M = some (a, b)) :
    (1 ≤ a ∧ a + 7 ≤ b ∧ b ≤ M) ∧ 2 ≤ m := by
  unfold drawWindow randint at h
  by_cases h1 : 1 < m
  · simp only [if_pos h1] at h
    by_cases h2 : 1 + lcgNext d % (m - 1) + 7 < M
    · simp only [if_pos h2] at h
      obtain ⟨ha, hb⟩ := Prod.mk.inj (Option.some.inj h)
      have hmod : lcgNext (lcgNext d) % (M - (1 + lcgNext d % (m - 1) + 7))
          < M - (1 + lcgNext d % (m - 1) + 7) := Nat.mod_lt _ (by omega)
      omega
    · simp only [if_neg h2] at h
      exact absurd h (by simp)
  · simp only [if_neg h1] at h
    exact absurd h (by simp)

theorem drawWindow_bounds_witness :
    ((1 ≤ 3 ∧ 3 + 7 ≤ 19 ∧ 19 ≤ 30) ∧ 2 ≤ 5) :=
  drawWindow_bounds 3 5 30 3 19 (by rfl)

/-- C6: discovery on the raw-infection root returns the unique matching
directory when exactly one entry matches the location-id suffix pattern,
fails with a FileNotFoundError when zero entries match, always fails
with a RuntimeError when two or more match, and the two failure kinds
are distinct, so ambiguity is never silently resolved to an arbitrary
match. -/
theorem get_location_dir_spec (entries : List String) (locationId : Nat) :
    (∀ dir, entries.filter (fun n => locationDirPattern locationId n) = [dir] →
      get_location_dir entries locationId = Except.ok dir) ∧
    (entries.filter (fun n => locationDirPattern locationId n) = [] →
      get_location_dir entries locationId = Except.error
        (PyError.fileNotFoundError
          ("There is not a location-specific folder for " ++ toString locationId ++ "."))) ∧
    (2 ≤ (entries.filter (fun n => locationDirPattern locationId n)).length →
      get_location_dir entries locationId = Except.error
        (PyError.runtimeError
          ("There is more than one location-specific folder for " ++ toString locationId ++ "."))) ∧
    (∀ m1 m2 : String, PyError.runtimeError m1 ≠ PyError.fileNotFoundError m2) := by
  refine ⟨?_, ?_, ?_, ?_⟩
  · intro dir hdir
    simp [get_location_dir, hdir]
  · intro h0
    simp [get_location_dir, h0]
  · intro h2
    have h1 : 1 < (entries.filter (fun n => locationDirPattern locationId n)).length := by
      omega
    simp [get_location_dir, h1]
  · intro m1 m2 h
    exact PyError.noConfusion h

theorem get_location_dir_spec_witness :
    get_location_dir ["info", "mexico_12"] 12 = Except.ok "mexico_12" :=
  (get_location_dir_spec ["info", "mexico_12"] 12).1 "mexico_12" (by decide)

/-- C7: calling make_dirs on a read-only store fails with a
RuntimeError, a kind distinct from FileNotFoundError, and the
filesystem is unchanged; on a writable root the call succeeds and every
declared top-level sub-directory exists afterwards; and constructing
the always-read-only InfectionPaths in writable mode fails fatally with
a RuntimeError. -/
theorem makeDirs_mode_spec (className : String) (directories fs : List String) :
    ((makeDirs className true directories fs).2 = fs ∧
      ∃ msg, (makeDirs className true directories fs).1 =
        Except.error (PyError.runtimeError msg) ∧
        ∀ m2, PyError.runtimeError msg ≠ PyError.fileNotFoundError m2) ∧
    ((makeDirs className false directories fs).1 = Except.ok () ∧
      ∀ d ∈ directories, d ∈ (makeDirs className false directories fs).2) ∧
    (∃ msg, infectionPathsInit false = Except.error (PyError.runtimeError msg)) := by
  refine ⟨⟨rfl, ⟨_, rfl, ?_⟩⟩, ⟨rfl, ?_⟩, ⟨_, rfl⟩⟩
  · intro m2 h
    exact PyError.noConfusion h
  · intro d hd
    simpa [makeDirs] using Or.inr hd

theorem makeDirs_mode_spec_witness :
    "beta_scaling" ∈
      (makeDirs "ScenarioPaths" false ["beta_scaling", "component_draws", "outputs"] []).2 :=
  (makeDirs_mode_spec "ScenarioPaths" ["beta_scaling", "component_draws", "outputs"]
    []).2.1.2 "beta_scaling" (by simp)

theorem poolImap_ok {α β ε : Type} (g : α → β) (xs : List α) :
    poolImap (fun x => (Except.ok (g x) : Except ε β)) xs = Except.ok (xs.map g) := by
  induction xs with
  | nil => rfl
  | cons x rest ih => simp [poolImap, ih]

theorem poolImap_fail {α β ε : Type} (f : α → Except ε β) :
    ∀ xs : List α, (∃ x ∈ xs, ∀ y, f x ≠ Except.ok y) →
      ∃ e, poolImap f xs = Except.error e := by
  intro xs
  induction xs with
  | nil =>
      rintro ⟨x, hx, -⟩
      exact absurd hx (List.not_mem_nil x)
  | cons x rest ih =>
      rintro ⟨z, hz, hzf⟩
      cases hfx : f x with
      | error e => exact ⟨e, by simp [poolImap, hfx]⟩
      | ok y =>
          rcases List.mem_cons.mp hz with hzx | hzr
          · subst hzx
            exact absurd hfx (hzf y)
          · obtain ⟨e, he⟩ := ih ⟨z, hzr, hzf⟩
            exact ⟨e, by simp [poolImap, hfx, he]⟩

/-- C8: over the ordered draw sequence 0..N-1 the executor returns
exactly the sequentially mapped per-draw results in draw order when
every worker succeeds, and whenever some worker in the batch fails the
whole batch results in that failure, never in a partial result list. -/
theorem poolImap_spec {β ε : Type} (g : Nat → β) (N : Nat) (f : Nat → Except ε β) :
    poolImap (fun dr => (Except.ok (g dr) : Except ε β)) (List.range N)
      = Except.ok ((List.range N).map g) ∧
    (∀ xs : List Nat, (∃ x ∈ xs, ∀ y, f x ≠ Except.ok y) →
      ∃ e, poolImap f xs = Except.error e) :=
  ⟨poolImap_ok g (List.range N), poolImap_fail f⟩

theorem poolImap_spec_witness :
    ∃ e, poolImap (fun dr => if dr = 1 then Except.error 0 else Except.ok dr) [0, 1, 2]
      = Except.error e :=
  (poolImap_spec (fun dr => dr) 3
    (fun dr => if dr = 1 then Except.error 0 else Except.ok dr)).2 [0, 1, 2]
    ⟨1, by simp, fun y h => by simp at h⟩

theorem loadCovariateAux_all_eq {α : Type} [DecidableEq α] (c : α) (w : Nat) :
    ∀ rest : List (String × α), (∀ p ∈ rest, p.2 = c) →
      loadCovariateAux rest (some c) w = Except.ok (some c, w) := by
  intro rest
  induction rest with
  | nil => intro _; rfl
  | cons q t ih =>
      intro hall
      obtain ⟨s, r⟩ := q
      have hr : r = c := hall (s, r) (List.mem_cons_self _ _)
      subst hr
      simp only [loadCovariateAux, if_pos rfl]
      exact ih (fun p hp => hall p (List.mem_cons_of_mem _ hp))

theorem loadCovariateAux_mismatch {α : Type} [DecidableEq α] (c : α) :
    ∀ (rest : List (String × α)) (w : Nat), (∃ p ∈ rest, p.2 ≠ c) →
      ∃ msg, loadCovariateAux rest (some c) w = Except.error (PyError.runtimeError msg) := by
  intro rest
  induction rest with
  | nil =>
      rintro w ⟨p, hp, -⟩
      exact absurd hp (List.not_mem_nil p)
  | cons q t ih =>
      rintro w ⟨p, hp, hpne⟩
      obtain ⟨s, r⟩ := q
      by_cases hcr : c = r
      · subst hcr
        rcases List.mem_cons.mp hp with rfl | hpt
        · exact absurd rfl hpne
        · obtain ⟨msg, hmsg⟩ := ih w ⟨p, hpt, hpne⟩
          exact ⟨msg, by simpa [loadCovariateAux] using hmsg⟩
      · exact ⟨"Regression data is not exactly equal between covariates in covariate pool.",
          by simp [loadCovariateAux, hcr]⟩

/-- C9: over a nonempty ordered scenario map whose first scenario
derives regression data r0, the regression entry is stored exactly once
and the call succeeds when every other scenario file derives regression
data exactly equal to r0, and the call fails with the RuntimeError
consistency error when some scenario file derives regression data not
equal to the previously cached r0. -/
theorem loadCovariate_spec {α : Type} [DecidableEq α] (s0 : String) (r0 : α)
    (rest : List (String × α)) :
    ((∀ p ∈ rest, p.2 = r0) →
      loadCovariate ((s0, r0) :: rest) = Except.ok (some r0, 1)) ∧
    ((∃ p ∈ rest, p.2 ≠ r0) →
      ∃ msg, loadCovariate ((s0, r0) :: rest)
        = Except.error (PyError.runtimeError msg)) := by
  constructor
  · intro hall
    exact loadCovariateAux_all_eq r0 1 rest hall
  · intro hex
    exact loadCovariateAux_mismatch r0 rest 1 hex

theorem loadCovariate_spec_witness :
    loadCovariate [("reference", (3 : ℕ)), ("worse", 3)] = Except.ok (some 3, 1) :=
  (loadCovariate_spec "reference" 3 [("worse", 3)]).1 (by simp)

/-- C10: in every such trace the unconditional pdb.set_trace() of line
48 executes after the cross-draw mean and before any offset application
and before any persistence write: the trace splits around the trap with
the cross-draw mean in the prefix and no offset-application or
persistence event anywhere in the prefix. -/
theorem pdb_trap_precedes_persistence (nDraws : Nat) :
    ∃ pre post,
      runBetaResidualMeanTrace nDraws = pre ++ RunEvent.pdbTrap :: post ∧
      RunEvent.crossDrawMean ∈ pre ∧
      (∀ e ∈ pre, (∀ dr, e ≠ RunEvent.persistDraw dr) ∧
        (∀ dr, e ≠ RunEvent.applyOffsetTo dr)) := by
  refine ⟨RunEvent.loadInputs ::
      ((List.range nDraws).map RunEvent.computeDraw ++ [RunEvent.crossDrawMean]),
    RunEvent.computeOffsets :: persistLoop (List.range nDraws), ?_, ?_, ?_⟩
  · simp [runBetaResidualMeanTrace]
  · simp
  · intro e he
    rcases List.mem_cons.mp he with rfl | he2
    · exact ⟨(fun dr h => nomatch h), (fun dr h => nomatch h)⟩
    · rcases List.mem_append.mp he2 with hm | hc
      · obtain ⟨dr0, -, rfl⟩ := List.mem_map.mp hm
        exact ⟨(fun dr h => nomatch h), (fun dr h => nomatch h)⟩
      · have he3 : e = RunEvent.crossDrawMean := by simpa using hc
        subst he3
        exact ⟨(fun dr h => nomatch h), (fun dr h => nomatch h)⟩
